import Mathlib

/-!
Shallow embedding of the alert-dispatch subsystem in
`notification_service.py` / `config.py` (classes `NotificationService` and
`FlareGuardBot`).  Network and file-system effects are modelled by an
oracle environment (`NetEnv`): each outbound call consults the oracle for
its outcome, and every function additionally returns the list of effectful
operations (`Op`) it performed, in order.  Python exceptions are modelled
with `Except PyErr`; a Python `try`/`except` block becomes a `match` on the
`Except` value of its body.
-/

namespace FireSmoke

/-- Python exception values that can arise in the modelled code paths. -/
inductive PyErr where
  | transport (msg : String)
  | httpStatus (code : Nat)
  | badBody
  | attributeError (name : String)
  | other (msg : String)
deriving DecidableEq, Repr

/-- Observable effectful operations, recorded in order of execution. -/
inductive Op where
  | persistFrame (name : String)
  | submitJob
  | postUpload
  | getWhatsapp
  | sendTelegramPhoto (chat : String)
  | readImageFile
  | newEventLoop
  | closeEventLoop
deriving DecidableEq, Repr

/-- Operations that are outbound network calls
(`requests.post`, `requests.get`, `bot.send_photo`). -/
def Op.isNetwork : Op → Bool
  | .postUpload => true
  | .getWhatsapp => true
  | .sendTelegramPhoto _ => true
  | _ => false

/-- Python truthiness of an optional string (`os.getenv` result):
`None` and the empty string are falsy. -/
def truthy : Option String → Bool
  | none => false
  | some s => !(s == "")

/-- The decoded upload response: HTTP status plus the optional
`data.link` field (`none` models a malformed/linkless JSON body). -/
structure PostResp where
  status : Nat
  link : Option String
deriving DecidableEq, Repr

/-- Oracle for the external world consulted by one dispatch job:
environment credential for Imgur, outcome of opening the image file for
upload, outcome of the upload POST, outcome of the CallMeBot GET, whether
the persisted frame file exists, and the per-chat outcome of the Telegram
`send_photo` call. -/
structure NetEnv where
  imgurClientId : Option String
  openImageOk : Bool
  postResp : Except PyErr PostResp
  getResp : Except PyErr Nat
  fileExists : Bool
  sendPhoto : String → Except PyErr Unit

/-- Environment variables read by `NotificationService._init_services`
and the `FlareGuardBot` constructor. -/
structure EnvVars where
  callmebotApiKey : Option String
  receiverWhatsappNumber : Option String
  telegramToken : Option String
  telegramChatId : Option String

/-- The `FlareGuardBot` object: token, default chat id, registered
recipient chat ids. -/
structure FlareGuardBot where
  token : String
  default_chat_id : Option String
  chat_ids : List String
deriving DecidableEq, Repr

/-- `FlareGuardBot.__init__`: seeds `chat_ids` with `[default_chat_id]`
when the default chat id is truthy, else the empty list. -/
def FlareGuardBot.make (token : String) (default_chat_id : Option String) : FlareGuardBot :=
  { token := token, default_chat_id := default_chat_id,
    chat_ids := if truthy default_chat_id then [default_chat_id.getD ""] else [] }

/-- The attributes of `NotificationService` set by `_init_services`.
`telegram_bot = none` models the attribute never being assigned (the
`else` branch of the token check assigns nothing); `some none` models
`self.telegram_bot = None` (setup raised); `some (some bot)` a live bot. -/
structure ServiceState where
  whatsapp_enabled : Bool
  telegram_bot : Option (Option FlareGuardBot)
deriving Repr

/-- Whether the Telegram channel is operational after init:
the `telegram_bot` attribute exists and holds a truthy bot object. -/
def ServiceState.telegramEnabled (st : ServiceState) : Bool :=
  match st.telegram_bot with
  | some (some _) => true
  | _ => false

/-- `NotificationService._init_services`.  WhatsApp is enabled iff both
`CALLMEBOT_API_KEY` and `RECEIVER_WHATSAPP_NUMBER` are truthy.  For
Telegram, the walrus `if token := os.getenv("TELEGRAM_TOKEN")` enters the
branch only for a truthy token; inside, constructing/initialising the bot
may raise (`telegramSetupOk` oracle), in which case `telegram_bot` is set
to `None`; with a falsy token the attribute is never assigned. -/
def NotificationService.init_services (ev : EnvVars) (telegramSetupOk : Bool) : ServiceState :=
  { whatsapp_enabled := truthy ev.callmebotApiKey && truthy ev.receiverWhatsappNumber,
    telegram_bot :=
      if truthy ev.telegramToken then
        if telegramSetupOk then
          some (some (FlareGuardBot.make (ev.telegramToken.getD "") ev.telegramChatId))
        else some none
      else none }

/-! ### Frame persistence (`save_frame`) -/

/-- A raw image frame (opaque byte content). -/
abbrev Frame := List Nat

/-- A `datetime.now()` value at microsecond resolution. -/
structure Timestamp where
  year : Nat
  month : Nat
  day : Nat
  hour : Nat
  minute : Nat
  second : Nat
  micro : Nat
deriving DecidableEq, Repr

/-- Field bounds of a well-formed `datetime` value, coarsened to the
digit widths used by `strftime` (`%Y` four digits, `%m %d %H %M %S` two,
`%f` six). -/
def Timestamp.valid (t : Timestamp) : Prop :=
  t.year < 10000 ∧ t.month < 100 ∧ t.day < 100 ∧ t.hour < 100 ∧
    t.minute < 100 ∧ t.second < 100 ∧ t.micro < 1000000

instance (t : Timestamp) : Decidable t.valid := by
  unfold Timestamp.valid; infer_instance

/-- Fixed-width zero-padded decimal rendering, as `strftime` produces for
in-range values: exactly `w` digit characters, most significant first. -/
def padDigits : Nat → Nat → List Char
  | 0, _ => []
  | w + 1, n => padDigits w (n / 10) ++ [Char.ofNat (48 + n % 10)]

/-- The characters of `strftime("%Y%m%d-%H%M%S-%f")`. -/
def strftimeTimestamp (t : Timestamp) : List Char :=
  padDigits 4 t.year ++ padDigits 2 t.month ++ padDigits 2 t.day ++ ['-'] ++
    padDigits 2 t.hour ++ padDigits 2 t.minute ++ padDigits 2 t.second ++ ['-'] ++
    padDigits 6 t.micro

/-- The persisted filename `alert_<timestamp>.jpg` built by `save_frame`. -/
def frameFilename (t : Timestamp) : String :=
  String.mk (String.toList "alert_" ++ strftimeTimestamp t ++ String.toList ".jpg")

/-- `NotificationService.save_frame`: writes the frame to the
timestamp-named file and returns the filename.  The name depends only on
the `datetime.now()` value, not on the frame. -/
def NotificationService.save_frame (frame : Frame) (now : Timestamp) : List Op × String :=
  ([Op.persistFrame (frameFilename now)], frameFilename now)

/-! ### Imgur upload (`upload_image`) -/

/-- The body of `upload_image`'s `try` block: missing client id returns
`None` early (no raise); a failed file open raises before the POST is
issued; `raise_for_status` raises exactly on 4xx/5xx; a body without a
`data.link` field raises a parse/key error; otherwise the link is
returned.  The second component is the block's outcome, `Except.error`
meaning a raised exception. -/
def NotificationService.upload_image_try (env : NetEnv) : List Op × Except PyErr (Option String) :=
  if truthy env.imgurClientId = false then ([], Except.ok none)
  else if env.openImageOk = false then ([], Except.error (PyErr.other "open failed"))
  else
    match env.postResp with
    | Except.error e => ([Op.postUpload], Except.error e)
    | Except.ok r =>
      if 400 ≤ r.status ∧ r.status < 600 then
        ([Op.postUpload], Except.error (PyErr.httpStatus r.status))
      else
        match r.link with
        | none => ([Op.postUpload], Except.error PyErr.badBody)
        | some l => ([Op.postUpload], Except.ok (some l))

/-- `NotificationService.upload_image`: the `try` body with its
catch-all `except`, which logs and returns `None`. -/
def NotificationService.upload_image (env : NetEnv) : List Op × Option String :=
  match NotificationService.upload_image_try env with
  | (t, Except.ok v) => (t, v)
  | (t, Except.error _) => (t, none)

/-! ### WhatsApp adapter (`_send_whatsapp_alert`) -/

/-- `NotificationService._send_whatsapp_alert`: upload first; a falsy
result (`if not image_url`) returns `False` with no GET; otherwise one
GET whose transport errors are caught, returning `True` exactly on
HTTP 200.  Total: every fault in its network calls is caught internally. -/
def NotificationService.send_whatsapp_alert (env : NetEnv) : List Op × Bool :=
  if truthy (NotificationService.upload_image env).2 = false then
    ((NotificationService.upload_image env).1, false)
  else
    match env.getResp with
    | Except.ok s => ((NotificationService.upload_image env).1 ++ [Op.getWhatsapp], s == 200)
    | Except.error _ => ((NotificationService.upload_image env).1 ++ [Op.getWhatsapp], false)

/-! ### Telegram bot adapter (`FlareGuardBot.send_alert`) -/

/-- The per-recipient loop of `FlareGuardBot.send_alert`: each
`send_photo` call runs inside its own `try`/`except`, so the attempt is
recorded and the loop continues whatever the oracle's outcome. -/
def FlareGuardBot.sendLoop (sendPhoto : String → Except PyErr Unit) : List String → List Op
  | [] => []
  | c :: cs =>
    (match sendPhoto c with
     | Except.ok _ => [Op.sendTelegramPhoto c]
     | Except.error _ => [Op.sendTelegramPhoto c]) ++ FlareGuardBot.sendLoop sendPhoto cs

/-- `FlareGuardBot.send_alert`: returns `False` when the persisted image
file does not exist; otherwise reads the file once, loops over all
registered chat ids, and returns `True` after the loop. -/
def FlareGuardBot.send_alert (bot : FlareGuardBot) (env : NetEnv) :
    List Op × Except PyErr Bool :=
  if env.fileExists then
    (Op.readImageFile :: FlareGuardBot.sendLoop env.sendPhoto bot.chat_ids, Except.ok true)
  else ([], Except.ok false)

/-- `NotificationService._send_telegram_alert`: awaits the bot's
`send_alert` inside `try`/`except`; on an exception logs and returns
`False`, otherwise falls through returning `None`. -/
def NotificationService.send_telegram_alert (bot : FlareGuardBot) (env : NetEnv) :
    List Op × Except PyErr (Option Bool) :=
  match FlareGuardBot.send_alert bot env with
  | (t, Except.ok _) => (t, Except.ok none)
  | (t, Except.error _) => (t, Except.ok (some false))

/-- The Telegram section of `_send_alerts_async_wrapper`: inside one
`try`, create a fresh event loop, set it current, run
`_send_telegram_alert` to completion on it, and close it; the `except`
catches any fault and logs it.  Note `loop.close()` sits after the run
with no `finally`, so it executes only when the run returns normally. -/
def NotificationService.telegramBridge (bot : FlareGuardBot) (env : NetEnv) :
    List Op × Except PyErr Unit :=
  match NotificationService.send_telegram_alert bot env with
  | (t, Except.ok _) => (Op.newEventLoop :: t ++ [Op.closeEventLoop], Except.ok ())
  | (t, Except.error _) => (Op.newEventLoop :: t, Except.ok ())

/-! ### Dispatch job (`_send_alerts_async_wrapper`) -/

/-- The control flow of `_send_alerts_async_wrapper` with its two call
sites abstracted (for fault injection at the adapter boundary).  The
WhatsApp call is *not* inside any `try`: an exception it raised would
propagate out of the job.  The `if self.telegram_bot:` attribute access
raises `AttributeError` when the attribute was never assigned; only the
Telegram section sits inside a `try`/`except` (already folded into
`telegramJob`). -/
def wrapperSkeleton (whatsapp_enabled : Bool) (telegram_bot : Option (Option FlareGuardBot))
    (whatsappCall : List Op × Except PyErr Bool)
    (telegramJob : FlareGuardBot → List Op × Except PyErr Unit) :
    List Op × Except PyErr Unit :=
  let t1 := if whatsapp_enabled then whatsappCall.1 else []
  let r1 : Except PyErr Unit :=
    if whatsapp_enabled then
      match whatsappCall.2 with
      | Except.ok _ => Except.ok ()
      | Except.error e => Except.error e
    else Except.ok ()
  match r1 with
  | Except.error e => (t1, Except.error e)
  | Except.ok _ =>
    match telegram_bot with
    | none => (t1, Except.error (PyErr.attributeError "telegram_bot"))
    | some none => (t1, Except.ok ())
    | some (some bot) => (t1 ++ (telegramJob bot).1, (telegramJob bot).2)

/-- `NotificationService._send_alerts_async_wrapper`: the skeleton
instantiated with the real adapters.  `_send_whatsapp_alert` catches all
its faults internally (it is total), hence its call site carries
`Except.ok`. -/
def NotificationService.send_alerts_async_wrapper (st : ServiceState) (env : NetEnv) :
    List Op × Except PyErr Unit :=
  wrapperSkeleton st.whatsapp_enabled st.telegram_bot
    ((NotificationService.send_whatsapp_alert env).1,
      Except.ok (NotificationService.send_whatsapp_alert env).2)
    (fun bot => NotificationService.telegramBridge bot env)

/-! ### Entry point (`send_alert`) -/

/-- `NotificationService.send_alert`: on the caller's thread, persist the
frame and submit the dispatch job to the executor, then return `True`.
No delivery outcome is awaited or reported. -/
def NotificationService.send_alert (st : ServiceState) (frame : Frame) (now : Timestamp)
    (detection : String) : List Op × Bool :=
  ((NotificationService.save_frame frame now).1 ++ [Op.submitJob], true)

/-! ### Concrete fixtures for witnesses and counterexamples -/

/-- A bot with the single default recipient. -/
def bot0 : FlareGuardBot := FlareGuardBot.make "tok" (some "chat1")

/-- All credentials present, every external call succeeds. -/
def envOk : NetEnv :=
  { imgurClientId := some "cid", openImageOk := true,
    postResp := Except.ok { status := 200, link := some "http://img" },
    getResp := Except.ok 200, fileExists := true,
    sendPhoto := fun _ => Except.ok () }

/-- Like `envOk` but the upload POST dies on the wire. -/
def envNoUpload : NetEnv := { envOk with postResp := Except.error (PyErr.transport "down") }

/-- Like `envOk` but the persisted frame file is gone. -/
def envMissingFile : NetEnv := { envOk with fileExists := false }

/-- Like `envOk` but the upload answers a non-2xx, non-error status
with a well-formed body. -/
def envNon2xx : NetEnv :=
  { envOk with postResp := Except.ok { status := 300, link := some "http://img" } }

/-- All environment variables set. -/
def evFull : EnvVars :=
  { callmebotApiKey := some "k", receiverWhatsappNumber := some "n",
    telegramToken := some "tok", telegramChatId := some "chat1" }

/-- Like `evFull` but `TELEGRAM_TOKEN` is absent. -/
def evNoTok : EnvVars := { evFull with telegramToken := none }

/-- A state with both channels up. -/
def stBoth : ServiceState := { whatsapp_enabled := true, telegram_bot := some (some bot0) }

/-- Two timestamps in adjacent microseconds. -/
def tsA : Timestamp := ⟨2024, 5, 17, 12, 30, 45, 123456⟩

/-- Second of the two adjacent-microsecond timestamps. -/
def tsB : Timestamp := ⟨2024, 5, 17, 12, 30, 45, 123457⟩

/-! ### Helper lemmas -/

theorem padDigits_length (w n : Nat) : (padDigits w n).length = w := by
  induction w generalizing n with
  | zero => rfl
  | succ w ih => simp [padDigits, ih]

theorem digitChar_inj : ∀ a < 10, ∀ b < 10,
    Char.ofNat (48 + a) = Char.ofNat (48 + b) → a = b := by decide

theorem padDigits_inj : ∀ (w n1 n2 : Nat), n1 < 10 ^ w → n2 < 10 ^ w →
    padDigits w n1 = padDigits w n2 → n1 = n2 := by
  intro w
  induction w with
  | zero =>
    intro n1 n2 h1 h2 _
    simp [pow_zero] at h1 h2
    omega
  | succ w ih =>
    intro n1 n2 h1 h2 h
    unfold padDigits at h
    obtain ⟨hpre, hlast⟩ := List.append_inj h (by simp [padDigits_length])
    have hmod : n1 % 10 = n2 % 10 := by
      have hc : Char.ofNat (48 + n1 % 10) = Char.ofNat (48 + n2 % 10) := by
        simpa using hlast
      exact digitChar_inj (n1 % 10) (Nat.mod_lt _ (by norm_num)) (n2 % 10)
        (Nat.mod_lt _ (by norm_num)) hc
    have hb1 : n1 / 10 < 10 ^ w := by
      rw [pow_succ] at h1
      omega
    have hb2 : n2 / 10 < 10 ^ w := by
      rw [pow_succ] at h2
      omega
    have hdiv := ih (n1 / 10) (n2 / 10) hb1 hb2 hpre
    omega

theorem strftimeTimestamp_inj (t1 t2 : Timestamp) (h1 : t1.valid) (h2 : t2.valid)
    (h : strftimeTimestamp t1 = strftimeTimestamp t2) : t1 = t2 := by
  obtain ⟨hy1, hmo1, hd1, hh1, hmi1, hs1, hu1⟩ := h1
  obtain ⟨hy2, hmo2, hd2, hh2, hmi2, hs2, hu2⟩ := h2
  unfold strftimeTimestamp at h
  obtain ⟨h, eu⟩ := List.append_inj' h (by simp [padDigits_length])
  obtain ⟨h, -⟩ := List.append_inj' h (by simp)
  obtain ⟨h, es⟩ := List.append_inj' h (by simp [padDigits_length])
  obtain ⟨h, emi⟩ := List.append_inj' h (by simp [padDigits_length])
  obtain ⟨h, eh⟩ := List.append_inj' h (by simp [padDigits_length])
  obtain ⟨h, -⟩ := List.append_inj' h (by simp)
  obtain ⟨h, ed⟩ := List.append_inj' h (by simp [padDigits_length])
  obtain ⟨ey, emo⟩ := List.append_inj' h (by simp [padDigits_length])
  obtain ⟨y1, mo1, d1, hh1', mi1, s1, u1⟩ := t1
  obtain ⟨y2, mo2, d2, hh2', mi2, s2, u2⟩ := t2
  simp only [Timestamp.mk.injEq]
  refine ⟨padDigits_inj 4 _ _ (by simpa using hy1) (by simpa using hy2) ey,
    padDigits_inj 2 _ _ (by simpa using hmo1) (by simpa using hmo2) emo,
    padDigits_inj 2 _ _ (by simpa using hd1) (by simpa using hd2) ed,
    padDigits_inj 2 _ _ (by simpa using hh1) (by simpa using hh2) eh,
    padDigits_inj 2 _ _ (by simpa using hmi1) (by simpa using hmi2) emi,
    padDigits_inj 2 _ _ (by simpa using hs1) (by simpa using hs2) es,
    padDigits_inj 6 _ _ (by simpa using hu1) (by simpa using hu2) eu⟩

theorem frameFilename_inj (t1 t2 : Timestamp) (h1 : t1.valid) (h2 : t2.valid)
    (h : frameFilename t1 = frameFilename t2) : t1 = t2 := by
  unfold frameFilename at h
  have hdata : String.toList "alert_" ++ strftimeTimestamp t1 ++ String.toList ".jpg" =
      String.toList "alert_" ++ strftimeTimestamp t2 ++ String.toList ".jpg" := by
    have := congrArg String.data h
    simpa using this
  obtain ⟨hpre, -⟩ := List.append_inj' hdata (by simp)
  obtain ⟨-, hts⟩ := List.append_inj hpre (by simp)
  exact strftimeTimestamp_inj t1 t2 h1 h2 hts

theorem sendLoop_eq_map (f : String → Except PyErr Unit) (cs : List String) :
    FlareGuardBot.sendLoop f cs = cs.map Op.sendTelegramPhoto := by
  induction cs with
  | nil => rfl
  | cons c cs ih =>
    cases h : f c <;> simp [FlareGuardBot.sendLoop, h, ih]

theorem map_sendPhoto_count_eq_zero (cs : List String) (o : Op)
    (h : ∀ c, o ≠ Op.sendTelegramPhoto c) :
    (cs.map Op.sendTelegramPhoto).count o = 0 := by
  rw [List.count_eq_zero]
  intro hmem
  obtain ⟨c, -, hc⟩ := List.mem_map.mp hmem
  exact h c hc.symm

theorem bot_send_alert_eq (bot : FlareGuardBot) (env : NetEnv) :
    FlareGuardBot.send_alert bot env =
      (if env.fileExists then Op.readImageFile :: bot.chat_ids.map Op.sendTelegramPhoto
       else [],
       Except.ok env.fileExists) := by
  cases h : env.fileExists <;> simp [FlareGuardBot.send_alert, h, sendLoop_eq_map]

theorem send_telegram_alert_eq (bot : FlareGuardBot) (env : NetEnv) :
    NotificationService.send_telegram_alert bot env =
      (if env.fileExists then Op.readImageFile :: bot.chat_ids.map Op.sendTelegramPhoto
       else [],
       Except.ok none) := by
  unfold NotificationService.send_telegram_alert
  rw [bot_send_alert_eq]

theorem telegramBridge_eq (bot : FlareGuardBot) (env : NetEnv) :
    NotificationService.telegramBridge bot env =
      (Op.newEventLoop ::
        (if env.fileExists then Op.readImageFile :: bot.chat_ids.map Op.sendTelegramPhoto
         else []) ++ [Op.closeEventLoop],
       Except.ok ()) := by
  unfold NotificationService.telegramBridge
  rw [send_telegram_alert_eq]

theorem upload_image_trace_cases (env : NetEnv) :
    (NotificationService.upload_image env).1 = [] ∨
      (NotificationService.upload_image env).1 = [Op.postUpload] := by
  unfold NotificationService.upload_image NotificationService.upload_image_try
  cases hc : truthy env.imgurClientId with
  | false => simp [hc]
  | true =>
    cases ho : env.openImageOk with
    | false => simp [hc, ho]
    | true =>
      cases hp : env.postResp with
      | error e => simp [hc, ho, hp]
      | ok r =>
        by_cases hs : 400 ≤ r.status ∧ r.status < 600
        · simp [hc, ho, hp, hs]
        · cases hl : r.link <;> simp [hc, ho, hp, hs, hl]

/-! ### Claim theorems -/

/-- Claim C1: for every service state (including one with no channel
enabled), frame, timestamp and label, `NotificationService.send_alert`
persists the frame, submits exactly one background job, and returns
`True`; it performs nothing else on the caller's side and reports no
delivery outcome. -/
theorem send_alert_accepts_and_enqueues (st : ServiceState) (frame : Frame)
    (now : Timestamp) (detection : String) :
    NotificationService.send_alert st frame now detection =
      ([Op.persistFrame (frameFilename now), Op.submitJob], true) := rfl

/-- Claim C2 counterexample: in a job with both channels enabled, an
exception raised at the WhatsApp adapter call site propagates out of
`_send_alerts_async_wrapper` (the call is not inside any `try`), and the
Telegram adapter is never invoked: the job's trace is empty and the job
ends with the uncaught exception. -/
theorem wrapper_whatsapp_exception_skips_telegram :
    wrapperSkeleton true (some (some bot0)) ([], Except.error (PyErr.other "boom"))
        (fun bot => NotificationService.telegramBridge bot envOk) =
      ([], Except.error (PyErr.other "boom")) := rfl

/-- Claim C2 (amended): the wrapper does not guard the WhatsApp call, but
`_send_whatsapp_alert` as implemented catches all its faults internally
(it is a total function of the network oracle), so whenever the
`telegram_bot` attribute holds a bot, the Telegram adapter is still
invoked (a fresh event loop is created in the job's trace) regardless of
the WhatsApp adapter's failures; exceptions in the Telegram section are
caught by the wrapper's `try`. -/
theorem wrapper_telegram_always_reached (st : ServiceState) (env : NetEnv)
    (bot : FlareGuardBot) (hbot : st.telegram_bot = some (some bot)) :
    Op.newEventLoop ∈ (NotificationService.send_alerts_async_wrapper st env).1 := by
  unfold NotificationService.send_alerts_async_wrapper wrapperSkeleton
  rw [hbot]
  cases hw : st.whatsapp_enabled <;> simp [telegramBridge_eq, hw]

/-- Witness for the amended Claim C2 at a concrete state with both
channels enabled and every network call succeeding. -/
theorem wrapper_telegram_always_reached_witness :
    Op.newEventLoop ∈ (NotificationService.send_alerts_async_wrapper stBoth envOk).1 :=
  wrapper_telegram_always_reached stBoth envOk bot0 rfl

/-- Claim C3: `FlareGuardBot.send_alert` returns `False` with no send
attempt when the persisted image file is missing; otherwise it reads the
file once and attempts a send to every registered recipient in order —
whatever each per-recipient outcome is — and returns `True` after the
loop (also for an empty recipient list). -/
theorem bot_send_alert_characterization (bot : FlareGuardBot) (env : NetEnv) :
    (env.fileExists = false →
      FlareGuardBot.send_alert bot env = ([], Except.ok false)) ∧
    (env.fileExists = true →
      FlareGuardBot.send_alert bot env =
        (Op.readImageFile :: bot.chat_ids.map Op.sendTelegramPhoto, Except.ok true) ∧
      (FlareGuardBot.send_alert bot env).1.count Op.readImageFile = 1) := by
  have hz := map_sendPhoto_count_eq_zero bot.chat_ids Op.readImageFile (fun c => by simp)
  constructor
  · intro h
    rw [bot_send_alert_eq]
    simp [h]
  · intro h
    rw [bot_send_alert_eq]
    simp [h, List.count_cons, hz]

/-- Witness for Claim C3: the missing-file case and the two-recipient
shape at the concrete default bot. -/
theorem bot_send_alert_characterization_witness :
    FlareGuardBot.send_alert bot0 envMissingFile = ([], Except.ok false) ∧
    FlareGuardBot.send_alert bot0 envOk =
      ([Op.readImageFile, Op.sendTelegramPhoto "chat1"], Except.ok true) :=
  ⟨(bot_send_alert_characterization bot0 envMissingFile).1 rfl,
   ((bot_send_alert_characterization bot0 envOk).2 rfl).1⟩

/-- Claim C4: every invocation of the Telegram adapter from a worker
thread creates exactly one fresh event loop, closes it after driving the
call to completion, and converts every fault of the call (missing file,
per-recipient send failures) into a logged outcome: no exception leaves
the Telegram section of the job. -/
theorem telegram_loop_per_invocation (bot : FlareGuardBot) (env : NetEnv) :
    ∃ t, NotificationService.telegramBridge bot env =
        (Op.newEventLoop :: t ++ [Op.closeEventLoop], Except.ok ()) ∧
      t.count Op.newEventLoop = 0 ∧ t.count Op.closeEventLoop = 0 := by
  have hz1 := map_sendPhoto_count_eq_zero bot.chat_ids Op.newEventLoop (fun c => by simp)
  have hz2 := map_sendPhoto_count_eq_zero bot.chat_ids Op.closeEventLoop (fun c => by simp)
  refine ⟨_, telegramBridge_eq bot env, ?_, ?_⟩ <;>
    cases h : env.fileExists <;> simp [h, List.count_cons, hz1, hz2]

/-- Claim C5: the WhatsApp adapter succeeds iff the upload yields a
(truthy) URL and the single alert GET answers HTTP 200; a failed upload
means no GET is attempted and the outcome is `False`; any other status or
transport error on the GET yields `False`; at most one GET and at most
one upload POST are performed (no retries). -/
theorem whatsapp_alert_characterization (env : NetEnv) :
    ((NotificationService.send_whatsapp_alert env).2 = true ↔
      truthy (NotificationService.upload_image env).2 = true ∧
        env.getResp = Except.ok 200) ∧
    (truthy (NotificationService.upload_image env).2 = false →
      (NotificationService.send_whatsapp_alert env).1.count Op.getWhatsapp = 0 ∧
        (NotificationService.send_whatsapp_alert env).2 = false) ∧
    (NotificationService.send_whatsapp_alert env).1.count Op.getWhatsapp ≤ 1 ∧
    (NotificationService.send_whatsapp_alert env).1.count Op.postUpload ≤ 1 := by
  have htr := upload_image_trace_cases env
  unfold NotificationService.send_whatsapp_alert
  cases hu : truthy (NotificationService.upload_image env).2 <;>
    cases hg : env.getResp <;>
    rcases htr with h | h <;>
    simp [hu, hg, h, List.count_cons, List.count_append]

/-- Witness for Claim C5: success when everything works, failure when
the upload dies on the wire. -/
theorem whatsapp_alert_characterization_witness :
    (NotificationService.send_whatsapp_alert envOk).2 = true ∧
    (NotificationService.send_whatsapp_alert envNoUpload).2 = false :=
  ⟨(whatsapp_alert_characterization envOk).1.mpr ⟨by decide, rfl⟩,
   ((whatsapp_alert_characterization envNoUpload).2.1 (by decide)).2⟩

/-- Claim C6 counterexample: a non-2xx upload response (HTTP 300) with a
well-formed body is not treated as failure — `raise_for_status` raises
only for 4xx/5xx — so `upload_image` returns the link instead of the
failure value. -/
theorem upload_image_non2xx_not_failure :
    envNon2xx.postResp = Except.ok { status := 300, link := some "http://img" } ∧
    ¬(200 ≤ 300 ∧ 300 < 300) ∧
    (NotificationService.upload_image envNon2xx).2 = some "http://img" :=
  ⟨rfl, by decide, rfl⟩

/-- Claim C6 (amended): `upload_image` performs at most one upload POST,
and returns a URL exactly when the client id is configured, the file
opens, the POST returns a response outside the 4xx/5xx range, and the
body carries a link; in every other case — transport error, 4xx/5xx
status, or malformed body — it returns the failure value `none`, the
catch-all `except` ensuring no exception reaches the caller. -/
theorem upload_image_characterization (env : NetEnv) :
    (NotificationService.upload_image env).1.count Op.postUpload ≤ 1 ∧
    ∀ l, ((NotificationService.upload_image env).2 = some l ↔
      (truthy env.imgurClientId = true ∧ env.openImageOk = true ∧
        ∃ r, env.postResp = Except.ok r ∧ ¬(400 ≤ r.status ∧ r.status < 600) ∧
          r.link = some l)) := by
  constructor
  · rcases upload_image_trace_cases env with h | h <;> simp [h]
  · intro l
    unfold NotificationService.upload_image NotificationService.upload_image_try
    cases hc : truthy env.imgurClientId with
    | false => simp [hc]
    | true =>
      cases ho : env.openImageOk with
      | false => simp [hc, ho]
      | true =>
        cases hp : env.postResp with
        | error e => simp [hc, ho, hp]
        | ok r =>
          by_cases hs : 400 ≤ r.status ∧ r.status < 600
          · simp [hc, ho, hp, hs]
          · cases hl : r.link with
            | none => simp [hc, ho, hp, hs, hl]
            | some v =>
              simp [hc, ho, hp, hs, hl]
              intro _
              omega

/-- Witness for the amended Claim C6 at the all-good environment. -/
theorem upload_image_characterization_witness :
    (NotificationService.upload_image envOk).2 = some "http://img" :=
  ((upload_image_characterization envOk).2 "http://img").mpr
    ⟨by decide, rfl, { status := 200, link := some "http://img" }, rfl, by decide, rfl⟩

/-- Claim C7: after `_init_services`, WhatsApp is enabled iff both
`CALLMEBOT_API_KEY` and `RECEIVER_WHATSAPP_NUMBER` are present (truthy),
and the Telegram bot is live iff `TELEGRAM_TOKEN` is present and its
setup succeeded; a channel missing a required credential is disabled
whatever the other channel's credentials are. -/
theorem init_services_enablement (ev : EnvVars) (setupOk : Bool) :
    (NotificationService.init_services ev setupOk).whatsapp_enabled =
      (truthy ev.callmebotApiKey && truthy ev.receiverWhatsappNumber) ∧
    (NotificationService.init_services ev setupOk).telegramEnabled =
      (truthy ev.telegramToken && setupOk) ∧
    (truthy ev.callmebotApiKey = false →
      (NotificationService.init_services ev setupOk).whatsapp_enabled = false) ∧
    (truthy ev.receiverWhatsappNumber = false →
      (NotificationService.init_services ev setupOk).whatsapp_enabled = false) ∧
    (truthy ev.telegramToken = false →
      (NotificationService.init_services ev setupOk).telegramEnabled = false) := by
  refine ⟨rfl, ?_, ?_, ?_, ?_⟩
  · cases ht : truthy ev.telegramToken <;> cases hs : setupOk <;>
      simp [NotificationService.init_services, ServiceState.telegramEnabled, ht, hs]
  · intro h
    simp [NotificationService.init_services, h]
  · intro h
    simp [NotificationService.init_services, h]
  · intro h
    simp [NotificationService.init_services, ServiceState.telegramEnabled, h]

/-- Witness for Claim C7: both channels enabled under full credentials;
Telegram disabled when only its token is absent. -/
theorem init_services_enablement_witness :
    (NotificationService.init_services evFull true).whatsapp_enabled = true ∧
    (NotificationService.init_services evFull true).telegramEnabled = true ∧
    (NotificationService.init_services evNoTok true).telegramEnabled = false := by
  refine ⟨?_, ?_, ?_⟩
  · rw [(init_services_enablement evFull true).1]
    decide
  · rw [(init_services_enablement evFull true).2.1]
    decide
  · exact (init_services_enablement evNoTok true).2.2.2.2 (by decide)

/-- Claim C8 counterexample: two distinct frames persisted with the same
microsecond-resolution `datetime.now()` reading collide — `save_frame`
gives both the identical filename. -/
theorem save_frame_same_microsecond_collision :
    (([0] : Frame) ≠ ([1] : Frame)) ∧
    (NotificationService.save_frame [0] tsA).2 =
      (NotificationService.save_frame [1] tsA).2 :=
  ⟨by decide, rfl⟩

/-- Claim C8 (amended): `save_frame` filenames are of the form
`alert_<YYYYMMDD-HHMMSS-ffffff>.jpg` and are distinct exactly as far as
the timestamp distinguishes the events: any two events persisted at
different microsecond-resolution timestamps get distinct filenames, but
two events within the same microsecond share one filename. -/
theorem save_frame_distinct_timestamps_distinct_names (f1 f2 : Frame)
    (t1 t2 : Timestamp) (h1 : t1.valid) (h2 : t2.valid) (hne : t1 ≠ t2) :
    (NotificationService.save_frame f1 t1).2 ≠
      (NotificationService.save_frame f2 t2).2 := by
  intro h
  exact hne (frameFilename_inj t1 t2 h1 h2 h)

/-- Witness for the amended Claim C8 at two timestamps one microsecond
apart. -/
theorem save_frame_distinct_timestamps_distinct_names_witness :
    (NotificationService.save_frame [0] tsA).2 ≠
      (NotificationService.save_frame [0] tsB).2 :=
  save_frame_distinct_timestamps_distinct_names [0] [0] tsA tsB
    (by decide) (by decide) (by decide)

/-- Claim C9: the caller's thread performs only local frame persistence
and job submission inside `send_alert`; no operation it executes is an
outbound network call — those occur only inside the submitted job. -/
theorem send_alert_caller_thread_no_network (st : ServiceState) (frame : Frame)
    (now : Timestamp) (detection : String) :
    (NotificationService.send_alert st frame now detection).1.all
      (fun o => !o.isNetwork) = true := rfl

/-- Claim C10: with `TELEGRAM_TOKEN` absent, `_init_services` never
assigns the `telegram_bot` attribute, so every background dispatch job
raises `AttributeError` at the `if self.telegram_bot:` check — after the
WhatsApp adapter, when enabled, has already run in full. -/
theorem missing_token_wrapper_attribute_error (ev : EnvVars) (setupOk : Bool)
    (env : NetEnv) (h : truthy ev.telegramToken = false) :
    (NotificationService.init_services ev setupOk).telegram_bot = none ∧
    NotificationService.send_alerts_async_wrapper
        (NotificationService.init_services ev setupOk) env =
      ((if (NotificationService.init_services ev setupOk).whatsapp_enabled
          then (NotificationService.send_whatsapp_alert env).1 else []),
       Except.error (PyErr.attributeError "telegram_bot")) := by
  have hb : (NotificationService.init_services ev setupOk).telegram_bot = none := by
    simp [NotificationService.init_services, h]
  refine ⟨hb, ?_⟩
  unfold NotificationService.send_alerts_async_wrapper wrapperSkeleton
  rw [hb]
  cases hw : (NotificationService.init_services ev setupOk).whatsapp_enabled <;>
    simp [hw]

/-- Witness for Claim C10: the concrete environment with WhatsApp
credentials present but no Telegram token. -/
theorem missing_token_wrapper_attribute_error_witness :
    (NotificationService.init_services evNoTok true).telegram_bot = none ∧
    NotificationService.send_alerts_async_wrapper
        (NotificationService.init_services evNoTok true) envOk =
      ((if (NotificationService.init_services evNoTok true).whatsapp_enabled
          then (NotificationService.send_whatsapp_alert envOk).1 else []),
       Except.error (PyErr.attributeError "telegram_bot")) :=
  missing_token_wrapper_attribute_error evNoTok true envOk (by decide)

end FireSmoke
